import Mathlib

/-!
The embedded-script launcher (`main.go`).

`main` builds the command `bash -s -- <args>`, acquires a pipe to the child's
standard input, starts the child, writes the embedded script to the pipe,
closes the pipe, waits, and terminates with the child's exit status.

The program is a straight line of calls into the operating system.  Each call
is modelled by the value it hands back to `main` (collected in `Env`), and
`main` is a function from the command line, the embedded payload and an `Env`
to the list of effects it performs and the way it terminates.
-/

namespace Launcher

/-- One byte of the embedded script (`[]byte`). -/
abbrev Byte := UInt8

/-! ## Library values seen by `main` -/

/-- The command under construction (`exec.Cmd`): only `Args` is touched by `main`. -/
structure Cmd where
  Args : List String
deriving DecidableEq

/-- Library function `exec.Command(name, arg...)`: `Args` is `name` followed by `arg`. -/
def Command (name : String) (arg : List String) : Cmd :=
  { Args := name :: arg }

/-- Linux `syscall.WaitStatus` is a `uint32`; we keep the number and reduce modulo `2^32`. -/
abbrev WaitStatus := Nat

/-- Library method `WaitStatus.Exited`: `w&mask == exited` with `mask = 0x7F`, `exited = 0`. -/
def WaitStatus.Exited (w : WaitStatus) : Bool :=
  (w % 2 ^ 32) &&& 0x7F == 0

/-- Library method `WaitStatus.ExitStatus`: `-1` unless `Exited`, else `int(w>>shift) & 0xFF`
with `shift = 8`. -/
def WaitStatus.ExitStatus (w : WaitStatus) : Int :=
  if !WaitStatus.Exited w then -1 else (((w % 2 ^ 32) >>> 8) &&& 0xFF : Nat)

/-- The dynamic value returned by `exitErr.Sys()`: either a `syscall.WaitStatus`
or a value of some other type (for which the type assertion in `main` fails). -/
inductive SysValue where
  | waitStatus (w : WaitStatus)
  | other
deriving DecidableEq

/-- A non-nil error returned by `cmd.Wait()`: a `*exec.ExitError` (with the text
of `Error()` and the value of `Sys()`), or an error of any other dynamic type. -/
inductive WaitErr where
  | exitError (msg : String) (sys : SysValue)
  | other (msg : String)
deriving DecidableEq

/-- Text of `err.Error()`. -/
def WaitErr.Error : WaitErr → String
  | .exitError msg _ => msg
  | .other msg => msg

/-- What the operating system and the library hand back to `main` at each call.
`none` stands for a nil error, `some msg` for an error whose `Error()` is `msg`.

For `write`, `none` is a complete write; `some (n, msg)` is an error after `n`
bytes were accepted (an `io.Writer` returns a non-nil error whenever it accepts
fewer bytes than it was given). -/
structure Env where
  stdinPipe : Option String
  start : Option String
  write : Option (Nat × String)
  close : Option String
  wait : Option WaitErr
deriving DecidableEq

/-! ## Effects of `main` -/

/-- The five operations `main` performs on the child. -/
inductive Op where
  | acquirePipe
  | start
  | writePayload
  | closeInput
  | wait
deriving DecidableEq

/-- The launcher's own standard streams. -/
inductive Stream where
  | stdout
  | stderr
deriving DecidableEq

/-- An observable effect of `main`, in program order. -/
inductive Event where
  /-- The call `cmd.StdinPipe()`. -/
  | stdinPipe
  /-- The call `cmd.Start()` with the command's `Args` at that moment. -/
  | start (argv : List String)
  /-- The call `stdin.Write(crossScript)` and the bytes the pipe accepted. -/
  | write (accepted : List Byte)
  /-- The call `stdin.Close()`. -/
  | close
  /-- The call `cmd.Wait()`. -/
  | wait
  /-- A write of the launcher itself to one of its own streams. -/
  | output (s : Stream) (text : String)
deriving DecidableEq

/-- How the process ends: `main` returns, or `os.Exit(code)` is called. -/
inductive Termination where
  | returned
  | osExit (code : Int)
deriving DecidableEq

/-- Exit code of the process as its parent observes it on Linux: `0` when `main`
returns, else the low eight bits of the argument of `os.Exit` (so `os.Exit(-1)` is
observed as 255). -/
def Termination.exitCode : Termination → Int
  | .returned => 0
  | .osExit code => code % 256

/-- The state threaded through `main`: the effects performed so far. -/
structure World where
  events : List Event
deriving DecidableEq

/-- Append one effect. -/
def World.emit (w : World) (e : Event) : World :=
  { events := w.events ++ [e] }

/-- Library method `os.Stderr.WriteString(s)`. -/
def World.stderrWriteString (w : World) (s : String) : World :=
  w.emit (.output .stderr s)

/-- The first two statements of `main`: `exec.Command("bash", "-s", "--")` followed by
`cmd.Args = append(cmd.Args, os.Args[1:]...)`, where `os.Args` is `prog :: args`. -/
def buildCmd (prog : String) (args : List String) : Cmd :=
  let osArgs := prog :: args
  let cmd := Command "bash" ["-s", "--"]
  { cmd with Args := cmd.Args ++ osArgs.drop 1 }

/-- The program `main` of `main.go`.  `prog` is `os.Args[0]`, `args` is `os.Args[1:]`,
`crossScript` is the embedded `cross.sh`.  The result of `stdin.Close()` is discarded by
the program, so `env.close` is never consulted. -/
def main (crossScript : List Byte) (prog : String) (args : List String) (env : Env)
    (w : World) : World × Termination :=
  let cmd := buildCmd prog args
  let w := w.emit .stdinPipe
  match env.stdinPipe with
  | some err =>
    (w.stderrWriteString ("Failed to create stdin pipe: " ++ err ++ "\n"), .osExit 1)
  | none =>
    let w := w.emit (.start cmd.Args)
    match env.start with
    | some err =>
      (w.stderrWriteString ("Failed to start bash: " ++ err ++ "\n"), .osExit 1)
    | none =>
      match env.write with
      | some (n, err) =>
        let w := w.emit (.write (crossScript.take n))
        (w.stderrWriteString ("Failed to write script: " ++ err ++ "\n"), .osExit 1)
      | none =>
        let w := w.emit (.write crossScript)
        let w := w.emit .close
        let w := w.emit .wait
        match env.wait with
        | some err =>
          match err with
          | .exitError _ (.waitStatus status) =>
            (w, .osExit (WaitStatus.ExitStatus status))
          | _ =>
            (w.stderrWriteString ("Failed to execute script: " ++ err.Error ++ "\n"), .osExit 1)
        | none => (w, .returned)

/-- The initial state: nothing has happened yet. -/
def World.init : World := { events := [] }

/-- A complete run of the launcher. -/
def run (crossScript : List Byte) (prog : String) (args : List String) (env : Env) :
    World × Termination :=
  main crossScript prog args env World.init


/-! ## The child's termination as reported on Linux -/

/-- How the child process ended. -/
inductive ChildEnd where
  /-- The child called `exit(code)`. -/
  | exited (code : Nat)
  /-- The child was terminated by signal `sig`, possibly dumping core. -/
  | signaled (sig : Nat) (coreDump : Bool)
deriving DecidableEq

/-- Linux encoding of the wait status: `(code & 0xff) << 8` for an exit, the signal
number in the low seven bits (and `0x80` for a core dump) for a signal. -/
def ChildEnd.status : ChildEnd → WaitStatus
  | .exited code => (code &&& 0xFF) <<< 8
  | .signaled sig coreDump => (sig &&& 0x7F) ||| (if coreDump then 0x80 else 0)

/-- Library method `cmd.Wait()` once the child has been reaped with `status`: nil when
`status.ExitStatus() == 0` (`ProcessState.Success`), otherwise an `*exec.ExitError` whose
`Sys()` is that `syscall.WaitStatus` and whose `Error()` is `msg`. -/
def cmdWait (status : WaitStatus) (msg : String) : Option WaitErr :=
  if WaitStatus.ExitStatus status == 0 then none
  else some (.exitError msg (.waitStatus status))

/-! ## Observations on a run -/

/-- The operation an event performs on the child, if any. -/
def Event.op? : Event → Option Op
  | .stdinPipe => some .acquirePipe
  | .start _ => some .start
  | .write _ => some .writePayload
  | .close => some .closeInput
  | .wait => some .wait
  | .output _ _ => none

/-- The operations on the child, in order. -/
def World.ops (w : World) : List Op :=
  w.events.filterMap Event.op?

/-- What the launcher itself wrote, and to which stream, in order. -/
def World.outputs (w : World) : List (Stream × String) :=
  w.events.filterMap fun
    | .output s text => some (s, text)
    | _ => none

/-- The byte sequences accepted by the child's input, one per write call. -/
def writes (es : List Event) : List (List Byte) :=
  es.filterMap fun
    | .write accepted => some accepted
    | _ => none

/-- All bytes accepted by the child's input, in order. -/
def written (es : List Event) : List Byte :=
  (writes es).flatten

/-- The event with its data (argument vector, bytes) erased. -/
def Event.shape : Event → Event
  | .start _ => .start []
  | .write _ => .write []
  | e => e

/-- The fixed order of the operations on the child. -/
def Op.sequence : List Op :=
  [.acquirePipe, .start, .writePayload, .closeInput, .wait]

/-- Position of an operation in the fixed order. -/
def Op.index : Op → Nat
  | .acquirePipe => 0
  | .start => 1
  | .writePayload => 2
  | .closeInput => 3
  | .wait => 4

/-- Whether the call behind an operation reported success (a nil error) in `env`. -/
def Env.succeeded (env : Env) : Op → Bool
  | .acquirePipe => env.stdinPipe.isNone
  | .start => env.start.isNone
  | .writePayload => env.write.isNone
  | .closeInput => env.close.isNone
  | .wait => env.wait.isNone

/-- The wait status `main` extracts from a wait error through its two type assertions
(`err.(*exec.ExitError)` and `exitErr.Sys().(syscall.WaitStatus)`), if both hold. -/
def WaitErr.waitStatus? : WaitErr → Option WaitStatus
  | .exitError _ (.waitStatus status) => some status
  | _ => none

/-- A run that ended with `os.Exit(1)` after writing exactly the text `d` to the error
stream (and nothing else to any stream), `d` being non-empty and ending in a newline. -/
def ReportsOnce (r : World × Termination) (d : String) : Prop :=
  r.2 = .osExit 1 ∧ r.1.outputs = [(.stderr, d)] ∧ d ≠ "" ∧ d.data.getLast? = some '\n'

/-! ## Concrete environments -/

/-- Every call succeeds and the child ends as `c`; `msg` is the text of the exit error. -/
def Env.childEnds (c : ChildEnd) (msg : String) : Env :=
  { stdinPipe := none, start := none, write := none, close := none,
    wait := cmdWait c.status msg }

/-- The pipe is acquired and the child starts, but the write fails with a broken pipe
after `n` bytes because the child stopped reading; the child ends as `c`. -/
def Env.brokenPipe (n : Nat) (c : ChildEnd) (msg : String) : Env :=
  { stdinPipe := none, start := none, write := some (n, "write |1: broken pipe"),
    close := none, wait := cmdWait c.status msg }

/-- Every call succeeds and the child exits with code 0. -/
def Env.allSucceed : Env :=
  { stdinPipe := none, start := none, write := none, close := none, wait := none }

/-! ## The six paths through `main` -/

section Paths

variable (P : List Byte) (prog : String) (A : List String) (env : Env)

/-- Lines 19-23: the pipe cannot be acquired. -/
theorem run_of_pipe_error (e : String) (hp : env.stdinPipe = some e) :
    run P prog A env =
      (⟨[.stdinPipe, .output .stderr ("Failed to create stdin pipe: " ++ e ++ "\n")]⟩,
        .osExit 1) := by
  simp [run, main, hp, World.init, World.emit, World.stderrWriteString]

/-- Lines 30-33: the child cannot be started. -/
theorem run_of_start_error (e : String) (hp : env.stdinPipe = none)
    (hs : env.start = some e) :
    run P prog A env =
      (⟨[.stdinPipe, .start (buildCmd prog A).Args,
          .output .stderr ("Failed to start bash: " ++ e ++ "\n")]⟩, .osExit 1) := by
  simp [run, main, hp, hs, World.init, World.emit, World.stderrWriteString]

/-- Lines 36-39: the write reports an error after `n` bytes. -/
theorem run_of_write_error (n : Nat) (e : String) (hp : env.stdinPipe = none)
    (hs : env.start = none) (hw : env.write = some (n, e)) :
    run P prog A env =
      (⟨[.stdinPipe, .start (buildCmd prog A).Args, .write (P.take n),
          .output .stderr ("Failed to write script: " ++ e ++ "\n")]⟩, .osExit 1) := by
  simp [run, main, hp, hs, hw, World.init, World.emit, World.stderrWriteString]

/-- Lines 40-43 and 53: the wait reports no error and `main` returns. -/
theorem run_of_wait_nil (hp : env.stdinPipe = none) (hs : env.start = none)
    (hw : env.write = none) (ht : env.wait = none) :
    run P prog A env =
      (⟨[.stdinPipe, .start (buildCmd prog A).Args, .write P, .close, .wait]⟩,
        .returned) := by
  simp [run, main, hp, hs, hw, ht, World.init, World.emit]

/-- Lines 44-48: the wait error is an exit error carrying a wait status. -/
theorem run_of_wait_status (msg : String) (status : WaitStatus)
    (hp : env.stdinPipe = none) (hs : env.start = none) (hw : env.write = none)
    (ht : env.wait = some (.exitError msg (.waitStatus status))) :
    run P prog A env =
      (⟨[.stdinPipe, .start (buildCmd prog A).Args, .write P, .close, .wait]⟩,
        .osExit (WaitStatus.ExitStatus status)) := by
  simp [run, main, hp, hs, hw, ht, World.init, World.emit]

/-- Lines 50-51: the wait error carries no wait status. -/
theorem run_of_wait_other (err : WaitErr) (hp : env.stdinPipe = none)
    (hs : env.start = none) (hw : env.write = none) (ht : env.wait = some err)
    (hn : err.waitStatus? = none) :
    run P prog A env =
      (⟨[.stdinPipe, .start (buildCmd prog A).Args, .write P, .close, .wait,
          .output .stderr ("Failed to execute script: " ++ err.Error ++ "\n")]⟩,
        .osExit 1) := by
  rcases err with ⟨msg, _ | _⟩ | msg
  · simp [WaitErr.waitStatus?] at hn
  · simp [run, main, hp, hs, hw, ht, World.init, World.emit, World.stderrWriteString]
  · simp [run, main, hp, hs, hw, ht, World.init, World.emit, World.stderrWriteString]

end Paths

/-- The command built by `main` is `bash -s --` followed by the arguments. -/
theorem buildCmd_Args (prog : String) (A : List String) :
    (buildCmd prog A).Args = "bash" :: "-s" :: "--" :: A := by
  simp [buildCmd, Command]

/-- A diagnostic of the launcher is non-empty and ends in a newline. -/
theorem diagnostic_line (head e : String) :
    head ++ e ++ "\n" ≠ "" ∧ (head ++ e ++ "\n").data.getLast? = some '\n' := by
  constructor
  · intro h
    have := congrArg String.data h
    simp [String.data_append] at this
  · simp [String.data_append]

/-- The wait status of a child that exited with a code below 256 decodes to that code. -/
theorem ExitStatus_exited (K : Nat) (hK : K ≤ 255) :
    WaitStatus.ExitStatus (ChildEnd.status (.exited K)) = (K : Int) := by
  interval_cases K <;> rfl

/-- The wait status of a child terminated by a signal has no exit status. -/
theorem ExitStatus_signaled (sig : Nat) (coreDump : Bool) (h0 : 0 < sig) (h1 : sig < 127) :
    WaitStatus.ExitStatus (ChildEnd.status (.signaled sig coreDump)) = -1 := by
  cases coreDump <;> interval_cases sig <;> rfl

/-- A code in 0..255 passed to `os.Exit` is observed unchanged. -/
theorem exitCode_osExit_of_le (K : Nat) (hK : K ≤ 255) :
    (Termination.osExit (K : Int)).exitCode = (K : Int) := by
  simp only [Termination.exitCode]
  omega

/-! ## Exit-code propagation -/

/-- C1: for every K with 0 ≤ K ≤ 255, if the stdin pipe is acquired, the child starts,
the payload write succeeds and the child exits with code K, then the launcher's exit
code is K: for K = 0 the wait returns no error and `main` returns, for K ≠ 0 the wait
returns an exit error and `main` calls `os.Exit` with the `ExitStatus()` of its wait
status. -/
theorem C1_child_exit_code_is_launcher_exit_code (K : Nat) (hK : K ≤ 255)
    (P : List Byte) (prog : String) (A : List String) (env : Env) (msg : String)
    (hp : env.stdinPipe = none) (hs : env.start = none) (hw : env.write = none)
    (ht : env.wait = cmdWait (ChildEnd.status (.exited K)) msg) :
    (run P prog A env).2.exitCode = (K : Int) ∧
      (K = 0 → env.wait = none ∧ (run P prog A env).2 = .returned) ∧
      (K ≠ 0 →
        env.wait = some (.exitError msg (.waitStatus (ChildEnd.status (.exited K)))) ∧
        (run P prog A env).2 =
          .osExit (WaitStatus.ExitStatus (ChildEnd.status (.exited K)))) := by
  have hE := ExitStatus_exited K hK
  by_cases h0 : K = 0
  · have ht0 : env.wait = none := by
      rw [ht, cmdWait, hE, h0]; rfl
    have hr := run_of_wait_nil P prog A env hp hs hw ht0
    refine ⟨?_, fun _ => ⟨ht0, ?_⟩, fun h => absurd h0 h⟩
    · rw [hr, h0]; rfl
    · rw [hr]
  · have hne : ¬ ((K : Int) == 0) = true := by
      simpa using h0
    have ht1 : env.wait =
        some (.exitError msg (.waitStatus (ChildEnd.status (.exited K)))) := by
      rw [ht, cmdWait, hE, if_neg hne]
    have hr := run_of_wait_status P prog A env msg _ hp hs hw ht1
    refine ⟨?_, fun h => absurd h h0, fun _ => ⟨ht1, ?_⟩⟩
    · rw [hr, hE]; exact exitCode_osExit_of_le K hK
    · rw [hr]

/-- Witness for C1: a child that exits with code 7. -/
theorem C1_witness :
    (7 ≤ 255 ∧ (Env.childEnds (.exited 7) "exit status 7").stdinPipe = none) ∧
      (run [35, 33] "launcher" ["linux/amd64"]
        (Env.childEnds (.exited 7) "exit status 7")).2.exitCode = 7 :=
  ⟨⟨by decide, rfl⟩,
    (C1_child_exit_code_is_launcher_exit_code 7 (by decide) [35, 33] "launcher"
      ["linux/amd64"] (Env.childEnds (.exited 7) "exit status 7") "exit status 7"
      rfl rfl rfl rfl).1⟩

/-! ## Argument forwarding -/

/-- C2: for every argument sequence A, the argument vector of the shell invocation built
by `main` is exactly `bash`, `-s`, `--` followed by A (every element of A verbatim and
in order, nothing added, dropped or rewritten), and this is the vector the child is
started with in every run that reaches the start. -/
theorem C2_argument_vector_is_bash_s_dashdash_then_args (prog : String)
    (A : List String) (P : List Byte) (env : Env) :
    (buildCmd prog A).Args = ["bash", "-s", "--"] ++ A ∧
      (buildCmd prog A).Args.take 3 = ["bash", "-s", "--"] ∧
      (buildCmd prog A).Args.drop 3 = A ∧
      (buildCmd prog A).Args.length = 3 + A.length ∧
      (∀ i, (buildCmd prog A).Args[3 + i]? = A[i]?) ∧
      (∀ argv, Event.start argv ∈ (run P prog A env).1.events →
        argv = ["bash", "-s", "--"] ++ A) := by
  have hA := buildCmd_Args prog A
  refine ⟨by simp [hA], by simp [hA], by simp [hA], by simp [hA]; omega, ?_, ?_⟩
  · intro i
    simp [hA, Nat.add_comm 3 i]
  · intro argv h
    rcases env with ⟨_ | e1, _ | e2, _ | ⟨n, e3⟩, c, _ | (⟨m, _ | _⟩ | m)⟩ <;>
      simp [run, main, World.init, World.emit, World.stderrWriteString, hA] at h <;>
      simp [h]

/-- Witness for C2: two arguments, one of them looking like a flag. -/
theorem C2_witness :
    Event.start ["bash", "-s", "--", "-x", "linux/amd64"] ∈
        (run [35, 33] "launcher" ["-x", "linux/amd64"] Env.allSucceed).1.events ∧
      ["bash", "-s", "--", "-x", "linux/amd64"] =
        ["bash", "-s", "--"] ++ ["-x", "linux/amd64"] :=
  ⟨by decide,
    (C2_argument_vector_is_bash_s_dashdash_then_args "launcher" ["-x", "linux/amd64"]
      [35, 33] Env.allSucceed).2.2.2.2.2 _ (by decide)⟩

/-! ## Payload delivery -/

/-- C3: for every payload P, in every run in which the launcher closes the child's input,
the bytes it has written to that input before closing it are exactly P: the events
before any close contain one write, and that write delivered the whole of P. -/
theorem C3_payload_written_in_full_before_close (P : List Byte) (prog : String)
    (A : List String) (env : Env) (pre post : List Event)
    (h : (run P prog A env).1.events = pre ++ Event.close :: post) :
    writes pre = [P] ∧ written pre = P := by
  have key : pre = [.stdinPipe, .start (buildCmd prog A).Args, .write P] := by
    rcases env with ⟨_ | e1, _ | e2, _ | ⟨n, e3⟩, c, _ | (⟨m, _ | _⟩ | m)⟩ <;>
      simp [run, main, World.init, World.emit, World.stderrWriteString,
        List.cons_eq_append_iff] at h
    all_goals
      obtain ⟨_, rfl, _, rfl, _, rfl, rfl, _⟩ := h
      rfl
  subst key
  simp [writes, written]

/-- Witness for C3: a run that closes the input after writing a two-byte payload. -/
theorem C3_witness :
    (run [35, 33] "launcher" [] (Env.childEnds (.exited 0) "")).1.events =
        [.stdinPipe, .start ["bash", "-s", "--"], .write [35, 33]] ++
          Event.close :: [.wait] ∧
      written [.stdinPipe, .start ["bash", "-s", "--"], .write [35, 33]] = [35, 33] :=
  ⟨rfl,
    (C3_payload_written_in_full_before_close [35, 33] "launcher" []
      (Env.childEnds (.exited 0) "")
      [.stdinPipe, .start ["bash", "-s", "--"], .write [35, 33]] [.wait] rfl).2⟩

/-! ## Launcher-internal failures -/

/-- The four branches of `main` that report: when the pipe cannot be acquired, the shell
cannot be started, the payload write fails, or the wait returns an error from which the
two type assertions obtain no wait status, the run ends with `os.Exit(1)` after exactly
one write to the error stream, a non-empty text ending in a newline.  In particular,
whenever starting the shell would fail, the run ends this way. -/
theorem failure_branches_report_once (P : List Byte) (prog : String)
    (A : List String) (env : Env) :
    (∀ e, env.stdinPipe = some e →
        ReportsOnce (run P prog A env) ("Failed to create stdin pipe: " ++ e ++ "\n")) ∧
      (∀ e, env.stdinPipe = none → env.start = some e →
        ReportsOnce (run P prog A env) ("Failed to start bash: " ++ e ++ "\n")) ∧
      (∀ n e, env.stdinPipe = none → env.start = none → env.write = some (n, e) →
        ReportsOnce (run P prog A env) ("Failed to write script: " ++ e ++ "\n")) ∧
      (∀ err, env.stdinPipe = none → env.start = none → env.write = none →
        env.wait = some err → err.waitStatus? = none →
        ReportsOnce (run P prog A env)
          ("Failed to execute script: " ++ err.Error ++ "\n")) ∧
      (∀ e, env.start = some e → ∃ d, ReportsOnce (run P prog A env) d) := by
  have h1 : ∀ e, env.stdinPipe = some e →
      ReportsOnce (run P prog A env) ("Failed to create stdin pipe: " ++ e ++ "\n") := by
    intro e hp
    rw [run_of_pipe_error P prog A env e hp]
    exact ⟨rfl, rfl, diagnostic_line _ _⟩
  have h2 : ∀ e, env.stdinPipe = none → env.start = some e →
      ReportsOnce (run P prog A env) ("Failed to start bash: " ++ e ++ "\n") := by
    intro e hp hs
    rw [run_of_start_error P prog A env e hp hs]
    exact ⟨rfl, rfl, diagnostic_line _ _⟩
  refine ⟨h1, h2, ?_, ?_, ?_⟩
  · intro n e hp hs hw
    rw [run_of_write_error P prog A env n e hp hs hw]
    exact ⟨rfl, rfl, diagnostic_line _ _⟩
  · intro err hp hs hw ht hn
    rw [run_of_wait_other P prog A env err hp hs hw ht hn]
    exact ⟨rfl, rfl, diagnostic_line _ _⟩
  · intro e hs
    cases hp : env.stdinPipe with
    | none => exact ⟨_, h2 e hp hs⟩
    | some e0 => exact ⟨_, h1 e0 hp⟩

/-- C4 (evaluation at the failing input): the pipe is acquired, the child starts, the
write succeeds and the child is killed by signal 9.  The wait fails (it returns an
error) and the child has no exit status (`Exited()` is false), yet the launcher writes
nothing to its streams and calls `os.Exit(-1)`, observed as exit code 255: for no text
is this a run that reports once on the error stream and terminates with exit code 1. -/
theorem C4_signal_killed_child_is_unreported_wait_failure :
    (Env.childEnds (.signaled 9 false) "signal: killed").stdinPipe = none ∧
      (Env.childEnds (.signaled 9 false) "signal: killed").start = none ∧
      (Env.childEnds (.signaled 9 false) "signal: killed").write = none ∧
      (Env.childEnds (.signaled 9 false) "signal: killed").wait.isSome = true ∧
      WaitStatus.Exited (ChildEnd.status (.signaled 9 false)) = false ∧
      (run [35, 33] "launcher" []
        (Env.childEnds (.signaled 9 false) "signal: killed")).1.outputs = [] ∧
      (run [35, 33] "launcher" []
        (Env.childEnds (.signaled 9 false) "signal: killed")).2.exitCode = 255 ∧
      ∀ d, ¬ ReportsOnce
        (run [35, 33] "launcher" []
          (Env.childEnds (.signaled 9 false) "signal: killed")) d := by
  refine ⟨rfl, rfl, rfl, by decide, by decide, by decide, by decide, ?_⟩
  intro d h
  exact absurd h.1 (by decide)

/-! ## A child terminated by a signal -/

/-- C5 (evaluation at the failing input): when every call succeeds and the child is
killed by signal 9, the wait returns an exit error whose wait status is 9, and the
launcher calls `os.Exit(-1)` without writing anything to the error stream: it neither
reports the error nor terminates with exit code 1. -/
theorem C5_signal_killed_child_exit_minus_one_no_report :
    (Env.childEnds (.signaled 9 false) "signal: killed").wait =
        some (.exitError "signal: killed" (.waitStatus 9)) ∧
      (run [35, 33] "launcher" []
        (Env.childEnds (.signaled 9 false) "signal: killed")).2 = .osExit (-1) ∧
      (run [35, 33] "launcher" []
        (Env.childEnds (.signaled 9 false) "signal: killed")).1.outputs = [] ∧
      (run [35, 33] "launcher" []
        (Env.childEnds (.signaled 9 false) "signal: killed")).2.exitCode ≠ 1 := by
  decide

/-! ## A child that exits with its own code -/

/-- C6 (counterexample): the pipe is acquired, the child starts, runs and exits with
code 7, but it stopped reading its input and the payload write fails with a broken pipe.
The launcher writes a diagnostic to the error stream and its exit code is 1, not 7. -/
theorem C6_counterexample_write_fails_child_exits_7 :
    (Env.brokenPipe 0 (.exited 7) "exit status 7").stdinPipe = none ∧
      (Env.brokenPipe 0 (.exited 7) "exit status 7").start = none ∧
      (Env.brokenPipe 0 (.exited 7) "exit status 7").wait =
        cmdWait (ChildEnd.status (.exited 7)) "exit status 7" ∧
      (run [35, 33] "launcher" [] (Env.brokenPipe 0 (.exited 7) "exit status 7")).1.outputs
        = [(.stderr, "Failed to write script: write |1: broken pipe\n")] ∧
      (run [35, 33] "launcher" []
        (Env.brokenPipe 0 (.exited 7) "exit status 7")).2.exitCode = 1 ∧
      (run [35, 33] "launcher" []
        (Env.brokenPipe 0 (.exited 7) "exit status 7")).2.exitCode ≠ 7 := by
  decide

/-- C6 (amended): in every run in which the pipe is acquired, the child starts, the
payload write succeeds and the child exits with a code K of its own (0 ≤ K ≤ 255, zero
or not), the launcher writes nothing to its error or output stream, performs only the
five operations on the child, and terminates with code K. -/
theorem C6_child_exit_is_silent_when_write_succeeds (K : Nat) (hK : K ≤ 255)
    (P : List Byte) (prog : String) (A : List String) (env : Env) (msg : String)
    (hp : env.stdinPipe = none) (hs : env.start = none) (hw : env.write = none)
    (ht : env.wait = cmdWait (ChildEnd.status (.exited K)) msg) :
    (run P prog A env).1.outputs = [] ∧
      (run P prog A env).1.events =
        [.stdinPipe, .start (["bash", "-s", "--"] ++ A), .write P, .close, .wait] ∧
      (run P prog A env).2.exitCode = (K : Int) := by
  have hE := ExitStatus_exited K hK
  have hA := buildCmd_Args prog A
  by_cases h0 : ((K : Int) == 0) = true
  · have ht0 : env.wait = none := by
      rw [ht, cmdWait, hE, if_pos h0]
    rw [run_of_wait_nil P prog A env hp hs hw ht0, hA]
    refine ⟨rfl, rfl, ?_⟩
    have : (K : Int) = 0 := by simpa using h0
    rw [this]; rfl
  · have ht1 : env.wait =
        some (.exitError msg (.waitStatus (ChildEnd.status (.exited K)))) := by
      rw [ht, cmdWait, hE, if_neg h0]
    rw [run_of_wait_status P prog A env msg _ hp hs hw ht1, hA]
    refine ⟨rfl, rfl, ?_⟩
    rw [hE]; exact exitCode_osExit_of_le K hK

/-- Witness for C6 (amended): the payload `exit 7` with no arguments. -/
theorem C6_witness :
    (7 ≤ 255 ∧ (Env.childEnds (.exited 7) "exit status 7").write = none) ∧
      (run [101, 120, 105, 116, 32, 55] "launcher" []
        (Env.childEnds (.exited 7) "exit status 7")).1.outputs = [] ∧
      (run [101, 120, 105, 116, 32, 55] "launcher" []
        (Env.childEnds (.exited 7) "exit status 7")).2.exitCode = 7 :=
  have h := C6_child_exit_is_silent_when_write_succeeds 7 (by decide)
    [101, 120, 105, 116, 32, 55] "launcher" []
    (Env.childEnds (.exited 7) "exit status 7") "exit status 7" rfl rfl rfl rfl
  ⟨⟨by decide, rfl⟩, h.1, h.2.2⟩

/-! ## Order of the operations on the child -/

/-- C7: in every run the operations on the child are a beginning of the fixed sequence
acquire-pipe, start, write-payload, close-input, wait, each at most once; an operation is
attempted only after all earlier ones were attempted and succeeded (closing the pipe end
that the launcher alone holds reports no error; `main` does not look at that result and
the run is the same whatever it is); the pipe is acquired before the start, the input is
closed before the wait, and the outcome of the wait, hence the child's exit code,
influences the run only if the wait was called, the run ending with `os.Exit(1)`
otherwise. -/
theorem C7_operations_follow_fixed_sequence (P : List Byte) (prog : String)
    (A : List String) (env : Env) :
    (run P prog A env).1.ops <+: Op.sequence ∧
      (run P prog A env).1.ops.Nodup ∧
      (env.close = none →
        ∀ op ∈ (run P prog A env).1.ops, ∀ op', op'.index < op.index →
          op' ∈ (run P prog A env).1.ops ∧ env.succeeded op' = true) ∧
      (∀ c, run P prog A { env with close := c } = run P prog A env) ∧
      (Op.start ∈ (run P prog A env).1.ops →
        ∃ rest, (run P prog A env).1.ops = .acquirePipe :: .start :: rest) ∧
      (Op.wait ∈ (run P prog A env).1.ops →
        (run P prog A env).1.ops =
          [.acquirePipe, .start, .writePayload, .closeInput, .wait]) ∧
      (Op.wait ∉ (run P prog A env).1.ops →
        (run P prog A env).2 = .osExit 1 ∧
          ∀ t, run P prog A { env with wait := t } = run P prog A env) := by
  refine ⟨?_, ?_, ?_, ?_, ?_, ?_, ?_⟩
  · rcases env with ⟨_ | e1, _ | e2, _ | ⟨n, e3⟩, c, _ | (⟨m, _ | _⟩ | m)⟩ <;>
      simp [run, main, World.init, World.emit, World.stderrWriteString, World.ops,
        Event.op?, Op.sequence, List.prefix_cons_inj]
  · rcases env with ⟨_ | e1, _ | e2, _ | ⟨n, e3⟩, c, _ | (⟨m, _ | _⟩ | m)⟩ <;>
      simp [run, main, World.init, World.emit, World.stderrWriteString, World.ops,
        Event.op?]
  · intro hc op hop op' hlt
    rcases env with ⟨_ | e1, _ | e2, _ | ⟨n, e3⟩, c, _ | (⟨m, _ | _⟩ | m)⟩ <;>
      simp [run, main, World.init, World.emit, World.stderrWriteString, World.ops,
        Event.op?] at hop ⊢ <;>
      cases op <;> cases op' <;> simp_all [Op.index, Env.succeeded]
  · intro c
    rfl
  · rcases env with ⟨_ | e1, _ | e2, _ | ⟨n, e3⟩, c, _ | (⟨m, _ | _⟩ | m)⟩ <;>
      simp [run, main, World.init, World.emit, World.stderrWriteString, World.ops,
        Event.op?]
  · rcases env with ⟨_ | e1, _ | e2, _ | ⟨n, e3⟩, c, _ | (⟨m, _ | _⟩ | m)⟩ <;>
      simp [run, main, World.init, World.emit, World.stderrWriteString, World.ops,
        Event.op?]
  · rcases env with ⟨_ | e1, _ | e2, _ | ⟨n, e3⟩, c, _ | (⟨m, _ | _⟩ | m)⟩ <;>
      simp [run, main, World.init, World.emit, World.stderrWriteString, World.ops,
        Event.op?]

/-- Witness for C7: in a run where every call succeeds, the wait is attempted and the
close, which precedes it, was attempted and succeeded. -/
theorem C7_witness :
    (Env.allSucceed.close = none ∧
        Op.wait ∈ (run [35, 33] "launcher" [] Env.allSucceed).1.ops ∧
        Op.closeInput.index < Op.wait.index) ∧
      Op.closeInput ∈ (run [35, 33] "launcher" [] Env.allSucceed).1.ops ∧
      Env.allSucceed.succeeded .closeInput = true :=
  ⟨⟨rfl, by decide, by decide⟩,
    (C7_operations_follow_fixed_sequence [35, 33] "launcher" []
      Env.allSucceed).2.2.1 rfl .wait (by decide) .closeInput (by decide)⟩

/-! ## Closing the input handle -/

/-- C8 (counterexample): the write is attempted and fails; the launcher terminates with
`os.Exit(1)` and has not closed the input handle. -/
theorem C8_counterexample_failed_write_skips_close :
    Op.writePayload ∈
        (run [35, 33] "launcher" [] (Env.brokenPipe 1 (.exited 0) "")).1.ops ∧
      Op.closeInput ∉
        (run [35, 33] "launcher" [] (Env.brokenPipe 1 (.exited 0) "")).1.ops ∧
      (run [35, 33] "launcher" [] (Env.brokenPipe 1 (.exited 0) "")).2 = .osExit 1 := by
  decide

/-- C8 (amended): in every run in which the launcher attempts the write, if the write
succeeds the handle is closed right after it and before the wait; if the write fails the
launcher reports it and terminates with `os.Exit(1)` without closing the handle and
without waiting. -/
theorem C8_input_closed_after_successful_write (P : List Byte) (prog : String)
    (A : List String) (env : Env)
    (h : Op.writePayload ∈ (run P prog A env).1.ops) :
    (env.write = none →
        (run P prog A env).1.ops =
          [.acquirePipe, .start, .writePayload, .closeInput, .wait]) ∧
      (∀ n e, env.write = some (n, e) →
        (run P prog A env).1.ops = [.acquirePipe, .start, .writePayload] ∧
          ReportsOnce (run P prog A env) ("Failed to write script: " ++ e ++ "\n")) := by
  rcases env with ⟨_ | e1, _ | e2, _ | ⟨n, e3⟩, c, _ | (⟨m, _ | _⟩ | m)⟩ <;>
    simp [run, main, World.init, World.emit, World.stderrWriteString, World.ops,
      Event.op?] at h ⊢ <;>
    exact ⟨rfl, rfl, diagnostic_line _ _⟩

/-- Witness for C8 (amended): a run in which the write succeeds. -/
theorem C8_witness :
    (Op.writePayload ∈ (run [35, 33] "launcher" [] Env.allSucceed).1.ops ∧
        Env.allSucceed.write = none) ∧
      (run [35, 33] "launcher" [] Env.allSucceed).1.ops =
        [.acquirePipe, .start, .writePayload, .closeInput, .wait] :=
  ⟨⟨by decide, rfl⟩,
    (C8_input_closed_after_successful_write [35, 33] "launcher" [] Env.allSucceed
      (by decide)).1 rfl⟩

/-! ## Arguments and payload are not interpreted -/

/-- C9: for any two command lines and any two payloads, if pipe acquisition, start,
write and wait (with the child's status) have the same outcomes in both runs, the
launcher performs the same sequence of operations, writes the same texts to its streams
and terminates the same way with the same exit code; event by event the two runs are
equal once the forwarded argument vector and the bytes written to the child are erased. -/
theorem C9_run_independent_of_arguments_and_payload (P P' : List Byte)
    (prog prog' : String) (A A' : List String) (env env' : Env)
    (hp : env.stdinPipe = env'.stdinPipe) (hs : env.start = env'.start)
    (hw : env.write = env'.write) (ht : env.wait = env'.wait) :
    (run P prog A env).1.ops = (run P' prog' A' env').1.ops ∧
      (run P prog A env).1.outputs = (run P' prog' A' env').1.outputs ∧
      (run P prog A env).2 = (run P' prog' A' env').2 ∧
      (run P prog A env).2.exitCode = (run P' prog' A' env').2.exitCode ∧
      (run P prog A env).1.events.map Event.shape =
        (run P' prog' A' env').1.events.map Event.shape := by
  rcases env with ⟨p, s, w, c, t⟩
  rcases env' with ⟨p', s', w', c', t'⟩
  simp only at hp hs hw ht
  subst hp hs hw ht
  rcases p with _ | e1 <;> rcases s with _ | e2 <;> rcases w with _ | ⟨n, e3⟩ <;>
    rcases t with _ | (⟨m, _ | _⟩ | m) <;>
    simp [run, main, World.init, World.emit, World.stderrWriteString, World.ops,
      World.outputs, Event.op?, Event.shape]

/-- Witness for C9: two runs with different command lines and payloads in which the
child exits with code 3. -/
theorem C9_witness :
    ((Env.childEnds (.exited 3) "exit status 3").stdinPipe =
          (Env.childEnds (.exited 3) "exit status 3").stdinPipe ∧
        (Env.childEnds (.exited 3) "exit status 3").wait =
          (Env.childEnds (.exited 3) "exit status 3").wait) ∧
      (run [35, 33] "launcher" ["-s", "--help"]
          (Env.childEnds (.exited 3) "exit status 3")).1.ops =
        (run [] "cross" [] (Env.childEnds (.exited 3) "exit status 3")).1.ops ∧
      (run [35, 33] "launcher" ["-s", "--help"]
          (Env.childEnds (.exited 3) "exit status 3")).2 =
        (run [] "cross" [] (Env.childEnds (.exited 3) "exit status 3")).2 :=
  have h := C9_run_independent_of_arguments_and_payload [35, 33] [] "launcher" "cross"
    ["-s", "--help"] [] (Env.childEnds (.exited 3) "exit status 3")
    (Env.childEnds (.exited 3) "exit status 3") rfl rfl rfl rfl
  ⟨⟨rfl, rfl⟩, h.1, h.2.2.1⟩

/-! ## What the wait branch does with a wait status -/

/-- C10: whenever the wait returns an exit error whose `Sys()` is a wait status, the
launcher calls `os.Exit` with `ExitStatus()` of that status and writes no diagnostic,
whether or not the child exited; for a child terminated by a signal `ExitStatus()` is -1,
the wait returns such an exit error, and the launcher calls `os.Exit(-1)`: the value it
passes to `os.Exit` is neither in 0..255 nor 1 (the parent observes the low eight bits,
exit code 255, which is not 1 either); and the text `Failed to execute script` is written
only when the wait returned an error that is not an exit error or whose `Sys()` is not a
wait status. -/
theorem C10_exit_status_used_without_exited_check (P : List Byte) (prog : String)
    (A : List String) (env : Env) :
    (∀ msg status, env.stdinPipe = none → env.start = none → env.write = none →
        env.wait = some (.exitError msg (.waitStatus status)) →
        (run P prog A env).2 = .osExit (WaitStatus.ExitStatus status) ∧
          (run P prog A env).1.outputs = []) ∧
      (∀ sig coreDump msg, 0 < sig → sig < 127 →
        env.stdinPipe = none → env.start = none → env.write = none →
        env.wait = cmdWait (ChildEnd.status (.signaled sig coreDump)) msg →
        WaitStatus.Exited (ChildEnd.status (.signaled sig coreDump)) = false ∧
          WaitStatus.ExitStatus (ChildEnd.status (.signaled sig coreDump)) = -1 ∧
          (run P prog A env).2 = .osExit (-1) ∧
          (run P prog A env).1.outputs = [] ∧
          (∀ code, (run P prog A env).2 = .osExit code →
            ¬ (0 ≤ code ∧ code ≤ 255) ∧ code ≠ 1) ∧
          (run P prog A env).2.exitCode = 255 ∧
          (run P prog A env).2.exitCode ≠ 1) ∧
      (∀ text, (Stream.stderr, "Failed to execute script: " ++ text ++ "\n") ∈
          (run P prog A env).1.outputs →
        ∃ err, env.wait = some err ∧ err.waitStatus? = none ∧
          ∀ msg status, err ≠ .exitError msg (.waitStatus status)) := by
  refine ⟨?_, ?_, ?_⟩
  · intro msg status hp hs hw ht
    rw [run_of_wait_status P prog A env msg status hp hs hw ht]
    exact ⟨rfl, rfl⟩
  · intro sig coreDump msg h0 h1 hp hs hw ht
    have hE := ExitStatus_signaled sig coreDump h0 h1
    have hX : WaitStatus.Exited (ChildEnd.status (.signaled sig coreDump)) = false := by
      cases coreDump <;> interval_cases sig <;> rfl
    have ht1 : env.wait =
        some (.exitError msg (.waitStatus (ChildEnd.status (.signaled sig coreDump)))) := by
      rw [ht, cmdWait, hE]; rfl
    rw [run_of_wait_status P prog A env msg _ hp hs hw ht1, hE]
    have h255 : (Termination.osExit (-1)).exitCode = 255 := by decide
    refine ⟨hX, rfl, rfl, rfl, ?_, h255, by rw [h255]; decide⟩
    intro code hcode
    have hc : code = -1 := by
      simpa using hcode.symm
    subst hc
    decide
  · intro text h
    rcases env with ⟨_ | e1, _ | e2, _ | ⟨n, e3⟩, c, _ | (⟨m, _ | _⟩ | m)⟩ <;>
      simp [run, main, World.init, World.emit, World.stderrWriteString, World.outputs,
        WaitErr.waitStatus?] at h ⊢ <;>
      (have h2 := congrArg String.data h
       simp [String.data_append] at h2)

/-- Witness for C10: a child killed by signal 9 makes the launcher call `os.Exit(-1)`
without writing anything. -/
theorem C10_witness :
    ((0 < 9 ∧ 9 < 127) ∧
        (Env.childEnds (.signaled 9 false) "signal: killed").wait =
          cmdWait (ChildEnd.status (.signaled 9 false)) "signal: killed") ∧
      (run [35, 33] "launcher" []
        (Env.childEnds (.signaled 9 false) "signal: killed")).2 = .osExit (-1) ∧
      (run [35, 33] "launcher" []
        (Env.childEnds (.signaled 9 false) "signal: killed")).1.outputs = [] :=
  have h := (C10_exit_status_used_without_exited_check [35, 33] "launcher" []
    (Env.childEnds (.signaled 9 false) "signal: killed")).2.1 9 false "signal: killed"
    (by decide) (by decide) rfl rfl rfl rfl
  ⟨⟨⟨by decide, by decide⟩, rfl⟩, h.2.2.1, h.2.2.2.1⟩

end Launcher
